import Mathlib

/-!
Shallow embedding of `plugin.py` (jm_plugin): a chat-bot command plugin that
downloads an album, assembles its images into a PDF and uploads the PDF to a
messaging backend.  Pure logic is translated directly; interactions with the
outside world (the remote scraping library, the filesystem, the HTTP client,
the imaging library) are modelled as explicit inputs describing each call's
outcome, with a raised Python exception represented by `Option.none` /
a dedicated constructor.
-/

namespace JMPlugin

/-! ## Filename sanitizer (`sanitize_filename`, plugin.py lines 38-49)

`re.sub(r'[\\/:*?"<>|\r\n]+', '_', name).strip()` on the character list of
the input string: every maximal run of blacklisted characters becomes a
single underscore, then whitespace is stripped from both ends.  Python's
`str.strip()` strips Unicode whitespace; we model the ASCII whitespace set,
which is what the blacklist and the claims are about. -/

/-- The character class `[\\/:*?"<>|\r\n]` of the regex. -/
def badChar (c : Char) : Bool :=
  c = '\\' || c = '/' || c = ':' || c = '*' || c = '?' || c = '"' ||
  c = '<' || c = '>' || c = '|' || c = '\r' || c = '\n'

/-- Whitespace characters removed by `str.strip()` (ASCII subset). -/
def isSpaceChar (c : Char) : Bool :=
  c = ' ' || c = '\t' || c = '\n' || c = '\r' || c = '\x0b' || c = '\x0c'

/-- `re.sub(r'[...]+', '_', ·)`: replace each maximal run of blacklisted
characters by one underscore.  `prevBad` records whether the previous
character belonged to a run (in which case the current bad character extends
the same run and emits nothing). -/
def subBad : Bool → List Char → List Char
  | _, [] => []
  | prevBad, c :: cs =>
    if badChar c then
      if prevBad then subBad true cs else '_' :: subBad true cs
    else
      c :: subBad false cs

/-- Remove trailing characters satisfying `p`. -/
def dropTrailing (p : Char → Bool) (l : List Char) : List Char :=
  (l.reverse.dropWhile p).reverse

/-- Python `str.strip()`: drop leading and trailing whitespace. -/
def pyStrip (l : List Char) : List Char :=
  dropTrailing isSpaceChar (l.dropWhile isSpaceChar)

/-- `sanitize_filename` on the character list of the input string. -/
def sanitize_filename (s : List Char) : List Char :=
  pyStrip (subBad false s)

/-- `l` contains no blacklisted character. -/
def noBadChars (l : List Char) : Bool :=
  l.all fun c => !badChar c

/-- Neither the first nor the last character of `l` is whitespace. -/
def noEdgeSpace (l : List Char) : Bool :=
  (match l.head? with
   | none => true
   | some c => !isSpaceChar c) &&
  (match l.getLast? with
   | none => true
   | some c => !isSpaceChar c)

/-! ## PDF assembler (`images_to_pdf_sync`, plugin.py lines 53-91)

The imaging library's decoding/encoding is external; the embedding keeps the
function's own control flow: the empty-input guard raises `ValueError` before
any directory creation or file write; otherwise the output directory is
created, every image becomes one page in input order, and the output path is
returned. -/

/-- Observable outcome of `images_to_pdf_sync`: the returned value or the
`ValueError` message, plus which filesystem effects happened. -/
structure PdfResult where
  result : Except String String
  madeOutputDir : Bool
  wroteFile : Bool
  pages : Nat
  deriving Repr

def images_to_pdf_sync (imagePaths : List String) (outputPdfPath : String) :
    PdfResult :=
  if imagePaths.isEmpty then
    ⟨.error "没有图片可合并", false, false, 0⟩
  else
    ⟨.ok outputPdfPath, true, true, imagePaths.length⟩

/-! ## Upload client (`upload_pdf_via_napcat`, plugin.py lines 99-167)

The HTTP transport is external: a `Backend` records what each of the two
POSTs would do (raise, or complete with a status and body).  The URL and
payload construction (group vs private endpoint, lines 124-129 and 146-154)
only selects which backend is spoken to and is absorbed into `Backend`.
`fmt` stands for `json.dumps(json.loads t)`-with-fallback-to-`t` (lines
137-141 and 160-163): the JSON codec is the external `json` module.
`Option.none` as the overall result models an exception propagating out of
the function (the second attempt's `try/finally` closes the file handle but
re-raises, lines 156-167). -/

/-- Outcome of one HTTP POST attempt: it raised, or it completed with an
HTTP status and a response body. -/
inductive AttemptResult where
  | exn : AttemptResult
  | resp (status : Nat) (text : String) : AttemptResult
  deriving DecidableEq, Repr

/-- What the backend does on each of the two attempts. -/
structure Backend where
  firstAttempt : AttemptResult
  secondAttempt : AttemptResult
  deriving DecidableEq, Repr

/-- The multipart (FormData) attempt, lines 146-167: 200 returns success with
the formatted body, any other status returns the hard failure pair, an
exception propagates. -/
def multipartAttempt (fmt : String → String) (r : AttemptResult) :
    Option (Bool × String) :=
  match r with
  | .exn => none
  | .resp s t => if s = 200 then some (true, fmt t) else some (false, s!"HTTP {s}: {t}")

/-- `upload_pdf_via_napcat`: the structured (JSON-payload) attempt returns
success on status 200; on an exception, and equally when it completes with a
non-200 status (the `if` at line 136 has no `else` and does not return), the
code falls through to the multipart attempt. -/
def upload_pdf_via_napcat (fmt : String → String) (b : Backend) :
    Option (Bool × String) :=
  match b.firstAttempt with
  | .resp s t => if s = 200 then some (true, fmt t) else multipartAttempt fmt b.secondAttempt
  | .exn => multipartAttempt fmt b.secondAttempt

/-! ## User-facing messages

One constructor per `send_text` call site of `plugin.py`, with the data the
formatted Chinese string interpolates. -/

inductive Msg where
  | usage
  | badChapterArg
  | startDownload
  | checkFailed (err : String)
  | multiIgnoreInvalid (count : Nat)
  | multiSpecific (count : Nat) (n : Int)
  | multiFirst (count : Nat)
  | singleIgnore
  | downloadFailed
  | albumName (nm : String)
  | noImages
  | tooManyPages (cap : Int)
  | pdfFailed
  | noTarget
  | uploadFailed
  deriving DecidableEq, Repr

/-! ## Chapter-selection strategy (`JMCommand.execute`, plugin.py lines 407-424) -/

/-- The `only_first_chapter` / `use_chapter_index` pair the orchestrator
passes to the downloader, with the notices it sends while deciding. -/
structure Strategy where
  onlyFirstChapter : Bool
  useChapterIndex : Option Int
  notices : List Msg
  deriving DecidableEq, Repr

/-- Lines 407-424: `chapter_count` is `len(album)`; `chapterNum` is the
already-validated (positive) chapter argument, `none` when absent. -/
def selectStrategy (chapterCount : Nat) (chapterNum : Option Int) : Strategy :=
  if 1 < chapterCount then
    match chapterNum with
    | some n =>
      if (chapterCount : Int) < n then
        ⟨true, none, [.multiIgnoreInvalid chapterCount]⟩
      else
        ⟨false, some n, [.multiSpecific chapterCount n]⟩
    | none => ⟨true, none, [.multiFirst chapterCount]⟩
  else
    match chapterNum with
    | some _ => ⟨false, none, [.singleIgnore]⟩
    | none => ⟨false, none, []⟩

/-! ## Downloader chapter resolution (`async_download_album`, plugin.py
lines 270-309)

Which download call the downloader ends up making, given the
`only_first_chapter` / `chapter_index` arguments and the chapter total
reported by its own (second) metadata fetch.  The photo-id lookup and the
network download themselves are external; `DownloadAction.photo idx` means
`jmcomic.download_photo chapters_list[idx].photo_id`, `wholeAlbum` means
`jmcomic.download_album album_id`. -/

inductive DownloadAction where
  | wholeAlbum
  | photo (idx : Nat)
  deriving DecidableEq, Repr

def resolveDownloadAction (onlyFirst : Bool) (chapterIndex : Option Int)
    (totalChapters : Nat) : Except String DownloadAction :=
  if chapterIndex.isSome || onlyFirst then
    if totalChapters = 0 then
      .error "本子无章节信息"
    else
      match chapterIndex with
      | some ci =>
        let idx : Int := ci - 1
        if idx < 0 || (totalChapters : Int) ≤ idx then
          if onlyFirst then .ok (.photo 0) else .ok .wholeAlbum
        else
          .ok (.photo idx.toNat)
      | none => .ok (.photo 0)
  else
    .ok .wholeAlbum

/-! ## Command orchestrator (`JMCommand.execute`, plugin.py lines 356-508)

The environment `Env` fixes the outcome of every call into the outside world
(command text parsing, the two remote-library stages, the filesystem, the
backend); `execute` is the orchestrator's own control flow over them.
`Option.none` as the overall result models an exception escaping the
handler.  Python's `str.split` and `int()` are external builtins: `ArgsForm`
records their combined outcome on the matched argument text. -/

/-- Parsed shape of the command arguments: blank argument text, an id alone,
or an id plus a second token (`some none` when `int()` raises `ValueError`,
`some (some k)` when it parses to `k`; further tokens are ignored by the
code). -/
inductive ArgsForm where
  | noArgs
  | withId (albumId : String) (second : Option (Option Int))
  deriving DecidableEq, Repr

/-- Resolved upload target, lines 472-485: the `try` block's outcome.  An
exception inside it is swallowed (`pass`), leaving the target unresolved. -/
inductive Target where
  | group (gid : Int)
  | user (uid : Int)
  | unresolved
  deriving DecidableEq, Repr

/-- Outcomes of the external calls `execute` makes, in program order.
`download = none` models `async_download_album` raising before its own
`try` blocks (its directory setup, lines 258-263, is unguarded);
`mkPdfDirRaises` models `os.makedirs(pdf_dir)` at line 463 raising;
`pdfGen` is the outcome of `images_to_pdf_sync` run in a worker thread
(guarded by `try` at lines 466-470); `removeRaises` models `os.remove`
raising (guarded, lines 503-506). -/
structure Env where
  args : ArgsForm
  check : Except String Nat
  download : Option (Except String String)
  imgCount : Nat
  maxPdfPages : Int
  mkPdfDirRaises : Bool
  pdfGen : Except String Unit
  target : Target
  backend : Backend
  fmt : String → String
  removeRaises : Bool

/-- What a (non-raising) run of `execute` did: the texts sent, the returned
triple, and whether the PDF was produced, the upload attempted, and the
temporary PDF's deletion attempted / successful. -/
structure ExecOutcome where
  messages : List Msg
  ret : Bool × Option String × Bool
  pdfCreated : Bool
  uploadAttempted : Bool
  removeAttempted : Bool
  removeSucceeded : Bool
  deriving Repr

/-- Every `return` statement of `execute` is `return True, m, True`. -/
def finish (msgs : List Msg) (m : Option String)
    (pdf upl rem remOk : Bool) : ExecOutcome :=
  ⟨msgs, (true, m, true), pdf, upl, rem, remOk⟩

/-- `os.path.basename` for the POSIX paths the plugin builds. -/
def basename (s : String) : String :=
  (s.splitOn "/").getLastD s

/-- Lines 472-508: resolve the target, upload, report, clean up.  The
`elif user_id:` at line 491 makes a resolved user id of `0` fall into the
"cannot identify recipient" branch. -/
def executeUpload (env : Env) (msgs : List Msg) : Option ExecOutcome :=
  let noTargetOutcome := some (finish (msgs ++ [.noTarget]) none true false false false)
  let doUpload : Option ExecOutcome :=
    match upload_pdf_via_napcat env.fmt env.backend with
    | none => none
    | some (ok, m) =>
      if ok then
        some (finish msgs (some "完成") true true true (!env.removeRaises))
      else
        some (finish (msgs ++ [.uploadFailed]) (some m) true true false false)
  match env.target with
  | .group _ => doUpload
  | .user u => if u = 0 then noTargetOutcome else doUpload
  | .unresolved => noTargetOutcome

/-- Lines 391-470: everything after argument validation. -/
def executeAfterParse (env : Env) (chapterNum : Option Int) : Option ExecOutcome :=
  match env.check with
  | .error e =>
    some (finish [.startDownload, .checkFailed e] (some e) false false false false)
  | .ok chapterCount =>
    let st := selectStrategy chapterCount chapterNum
    let msgs := .startDownload :: st.notices
    match env.download with
    | none => none
    | some (.error e) =>
      some (finish (msgs ++ [.downloadFailed]) (some e) false false false false)
    | some (.ok albumDir) =>
      let msgs := msgs ++ [.albumName (basename albumDir)]
      if env.imgCount = 0 then
        some (finish (msgs ++ [.noImages]) none false false false false)
      else if env.maxPdfPages < (env.imgCount : Int) then
        some (finish (msgs ++ [.tooManyPages env.maxPdfPages]) none false false false false)
      else if env.mkPdfDirRaises then
        none
      else
        match env.pdfGen with
        | .error e =>
          some (finish (msgs ++ [.pdfFailed]) (some e) false false false false)
        | .ok _ => executeUpload env msgs

/-- `JMCommand.execute`, lines 356-508. -/
def execute (env : Env) : Option ExecOutcome :=
  match env.args with
  | .noArgs => some (finish [.usage] none false false false false)
  | .withId _ second =>
    match second with
    | some none => some (finish [.badChapterArg] none false false false false)
    | some (some k) =>
      if k ≤ 0 then
        some (finish [.badChapterArg] none false false false false)
      else
        executeAfterParse env (some k)
    | none => executeAfterParse env none

/-- `env` with the `os.remove` outcome replaced by `b`; used to state that a
failing deletion does not change the observable outcome. -/
def setRemoveRaises (env : Env) (b : Bool) : Env :=
  ⟨env.args, env.check, env.download, env.imgCount, env.maxPdfPages,
   env.mkPdfDirRaises, env.pdfGen, env.target, env.backend, env.fmt, b⟩

/-! ## Lemmas about the sanitizer -/

/-- The underscore the regex substitutes is not itself blacklisted. -/
theorem badChar_underscore : badChar '_' = false := by decide

/-- No character of `subBad b l` is blacklisted. -/
theorem subBad_no_bad (l : List Char) :
    ∀ b : Bool, ∀ c ∈ subBad b l, badChar c = false := by
  induction l with
  | nil => intro b c hc; simp [subBad] at hc
  | cons a l ih =>
    intro b c hc
    by_cases ha : badChar a
    · cases b with
      | true =>
        simp [subBad, ha] at hc
        exact ih true c hc
      | false =>
        simp [subBad, ha] at hc
        rcases hc with rfl | hc
        · exact badChar_underscore
        · exact ih true c hc
    · simp [subBad, ha] at hc
      rcases hc with rfl | hc
      · simpa using ha
      · exact ih false c hc

/-- On a list with no blacklisted character, the substitution is the
identity (for any run state). -/
theorem subBad_id (l : List Char) (hl : ∀ c ∈ l, badChar c = false) :
    ∀ b, subBad b l = l := by
  induction l with
  | nil => intro b; rfl
  | cons a l ih =>
    intro b
    have ha : badChar a = false := hl a (by simp)
    have hl' : ∀ c ∈ l, badChar c = false := fun c hc => hl c (by simp [hc])
    simp [subBad, ha, ih hl' false]

/-- Characters of `pyStrip l` come from `l`. -/
theorem mem_pyStrip (l : List Char) (c : Char) (hc : c ∈ pyStrip l) : c ∈ l := by
  unfold pyStrip dropTrailing at hc
  rw [List.mem_reverse] at hc
  have h1 := (List.dropWhile_sublist (l := (l.dropWhile isSpaceChar).reverse)
    (p := isSpaceChar)).mem hc
  rw [List.mem_reverse] at h1
  exact (List.dropWhile_sublist (l := l) (p := isSpaceChar)).mem h1

/-- The head of `dropWhile p l`, when present, falsifies `p`. -/
theorem head_dropWhile_false (p : Char → Bool) (l : List Char) (c : Char)
    (h : (l.dropWhile p).head? = some c) : p c = false := by
  induction l with
  | nil => simp [List.dropWhile] at h
  | cons a l ih =>
    by_cases ha : p a
    · rw [List.dropWhile_cons_of_pos ha] at h
      exact ih h
    · rw [List.dropWhile_cons_of_neg ha] at h
      simp at h
      subst h
      simpa using ha

/-- `dropTrailing p l` is `l` truncated: it extends to `l` on the right. -/
theorem dropTrailing_append (p : Char → Bool) (l : List Char) :
    dropTrailing p l ++ (l.reverse.takeWhile p).reverse = l := by
  unfold dropTrailing
  rw [← List.reverse_append, List.takeWhile_append_dropWhile, List.reverse_reverse]

/-- The head of `dropTrailing p l`, when present, is the head of `l`. -/
theorem head_dropTrailing (p : Char → Bool) (l : List Char) (c : Char)
    (h : (dropTrailing p l).head? = some c) : l.head? = some c := by
  have happ := dropTrailing_append p l
  cases hd : dropTrailing p l with
  | nil => rw [hd] at h; simp at h
  | cons a t =>
    rw [hd] at h happ
    simp at h
    subst h
    rw [← happ]
    rfl

/-- The last character of `dropTrailing p l`, when present, falsifies `p`. -/
theorem getLast_dropTrailing_false (p : Char → Bool) (l : List Char) (c : Char)
    (h : (dropTrailing p l).getLast? = some c) : p c = false := by
  unfold dropTrailing at h
  rw [List.getLast?_reverse] at h
  exact head_dropWhile_false p l.reverse c h

/-- The head of `pyStrip l`, when present, is not whitespace. -/
theorem head_pyStrip_false (l : List Char) (c : Char)
    (h : (pyStrip l).head? = some c) : isSpaceChar c = false := by
  unfold pyStrip at h
  have h2 := head_dropTrailing isSpaceChar (l.dropWhile isSpaceChar) c h
  exact head_dropWhile_false isSpaceChar l c h2

/-- The last character of `pyStrip l`, when present, is not whitespace. -/
theorem getLast_pyStrip_false (l : List Char) (c : Char)
    (h : (pyStrip l).getLast? = some c) : isSpaceChar c = false :=
  getLast_dropTrailing_false isSpaceChar (l.dropWhile isSpaceChar) c h

/-- `dropWhile` is the identity when the head does not satisfy `p`. -/
theorem dropWhile_id_of_head (p : Char → Bool) (l : List Char)
    (h : ∀ c, l.head? = some c → p c = false) : l.dropWhile p = l := by
  cases l with
  | nil => rfl
  | cons a t =>
    have ha : p a = false := h a rfl
    simp [List.dropWhile, ha]

/-- `dropTrailing` is the identity when the last character does not satisfy
`p`. -/
theorem dropTrailing_id_of_getLast (p : Char → Bool) (l : List Char)
    (h : ∀ c, l.getLast? = some c → p c = false) : dropTrailing p l = l := by
  unfold dropTrailing
  rw [dropWhile_id_of_head p l.reverse
    (fun c hc => h c (by rwa [List.head?_reverse] at hc)),
    List.reverse_reverse]

/-- `pyStrip` is the identity on an already-stripped list. -/
theorem pyStrip_id (l : List Char)
    (hh : ∀ c, l.head? = some c → isSpaceChar c = false)
    (hl : ∀ c, l.getLast? = some c → isSpaceChar c = false) :
    pyStrip l = l := by
  unfold pyStrip
  rw [dropWhile_id_of_head isSpaceChar l hh]
  exact dropTrailing_id_of_getLast isSpaceChar l hl

/-- The last element of a message list of the shape the orchestrator builds
before a terminating report. -/
theorem getLast?_cons_append_pair (a x y : Msg) (l : List Msg) :
    (a :: (l ++ [x, y])).getLast? = some y := by
  rw [show a :: (l ++ [x, y]) = (a :: (l ++ [x])) ++ [y] by simp]
  exact List.getLast?_concat _

/-! ## Claim theorems -/

/-- C7: `images_to_pdf_sync` on an empty image list fails with the
`ValueError`("没有图片可合并") empty-input error, creates no output
directory and writes no file. -/
theorem images_to_pdf_empty_input (outputPdfPath : String) :
    images_to_pdf_sync [] outputPdfPath =
      ⟨.error "没有图片可合并", false, false, 0⟩ := rfl

/-- C8: for every input, the sanitizer's output contains none of the
blacklisted characters `\ / : * ? " < > |` CR LF, and neither starts nor
ends with whitespace. -/
theorem sanitize_output_clean (s : List Char) :
    noBadChars (sanitize_filename s) = true ∧
    noEdgeSpace (sanitize_filename s) = true := by
  constructor
  · unfold noBadChars sanitize_filename
    rw [List.all_eq_true]
    intro c hc
    have hb := subBad_no_bad s false c (mem_pyStrip _ c hc)
    simp [hb]
  · unfold noEdgeSpace sanitize_filename
    rw [Bool.and_eq_true]
    constructor
    · cases h : (pyStrip (subBad false s)).head? with
      | none => rfl
      | some c => simp [head_pyStrip_false _ c h]
    · cases h : (pyStrip (subBad false s)).getLast? with
      | none => rfl
      | some c => simp [getLast_pyStrip_false _ c h]

/-- C9: the sanitizer is idempotent. -/
theorem sanitize_idempotent (s : List Char) :
    sanitize_filename (sanitize_filename s) = sanitize_filename s := by
  have hnb : ∀ c ∈ sanitize_filename s, badChar c = false := fun c hc =>
    subBad_no_bad s false c (mem_pyStrip _ c hc)
  show pyStrip (subBad false (sanitize_filename s)) = sanitize_filename s
  rw [subBad_id _ hnb false]
  exact pyStrip_id _ (head_pyStrip_false (subBad false s))
    (getLast_pyStrip_false (subBad false s))

/-- C2 counterexample: the structured attempt completes with status 500 and
no exception is raised, yet the multipart attempt is made and decides the
result: with a 200 multipart response the call succeeds with the multipart
body, with a 404 it fails with the multipart failure pair, and with a
raising multipart attempt the whole call raises.  So a non-200 first status
does trigger the multipart fallback, refuting the claim that only an
exception does. -/
theorem upload_non200_first_cex :
    upload_pdf_via_napcat id ⟨.resp 500 "a", .resp 200 "b"⟩ = some (true, "b") ∧
    upload_pdf_via_napcat id ⟨.resp 500 "a", .resp 404 "c"⟩ =
      some (false, "HTTP 404: c") ∧
    upload_pdf_via_napcat id ⟨.resp 500 "a", .exn⟩ = none := by
  refine ⟨rfl, ?_, rfl⟩
  rfl

/-- C2 amended: the multipart fallback is attempted whenever the structured
attempt does not complete with status 200 — both when it raises and when it
completes with a non-200 status — and the multipart attempt's outcome then
becomes the function's result. -/
theorem upload_fallback_condition (fmt : String → String) (b2 : AttemptResult)
    (s : Nat) (t : String) (hs : s ≠ 200) :
    upload_pdf_via_napcat fmt ⟨.resp s t, b2⟩ = multipartAttempt fmt b2 ∧
    upload_pdf_via_napcat fmt ⟨.exn, b2⟩ = multipartAttempt fmt b2 := by
  constructor
  · simp [upload_pdf_via_napcat, hs]
  · rfl

/-- Witness for C2's amended theorem at status 500. -/
theorem upload_fallback_condition_witness :
    upload_pdf_via_napcat id ⟨.resp 500 "x", .resp 200 "y"⟩ =
      multipartAttempt id (.resp 200 "y") :=
  (upload_fallback_condition id (.resp 200 "y") 500 "x" (by decide)).1

/-- C3: a non-200 structured attempt followed by a 200 multipart attempt
yields success carrying the (JSON-formatted) multipart response body; and
whenever the multipart attempt is reached (the structured attempt did not
complete with 200) and completes with a non-200 status, the result is the
failure pair `(false, "HTTP <status>: <body>")`. -/
theorem upload_fallback_results (fmt : String → String) (s1 s2 : Nat)
    (t1 t2 t3 : String) (b1 : AttemptResult)
    (h1 : s1 ≠ 200) (h2 : s2 ≠ 200) (hb1 : ∀ u, b1 ≠ .resp 200 u) :
    upload_pdf_via_napcat fmt ⟨.resp s1 t1, .resp 200 t2⟩ = some (true, fmt t2) ∧
    upload_pdf_via_napcat fmt ⟨b1, .resp s2 t3⟩ =
      some (false, s!"HTTP {s2}: {t3}") := by
  constructor
  · simp [upload_pdf_via_napcat, h1, multipartAttempt]
  · cases b1 with
    | exn => simp [upload_pdf_via_napcat, multipartAttempt, h2]
    | resp s t =>
      have hs : s ≠ 200 := by
        intro h
        exact hb1 t (by rw [h])
      simp [upload_pdf_via_napcat, hs, multipartAttempt, h2]

/-- Witness for C3 with concrete statuses 500 / 404. -/
theorem upload_fallback_results_witness :
    upload_pdf_via_napcat id ⟨.resp 500 "a", .resp 200 "b"⟩ = some (true, "b") ∧
    upload_pdf_via_napcat id ⟨.exn, .resp 404 "c"⟩ =
      some (false, "HTTP 404: c") :=
  upload_fallback_results id 500 404 "a" "b" "c" .exn (by decide) (by decide)
    (by intro u h; cases h)

/-- C1: the chapter-selection decision table.  `arg` is the validated
chapter argument (positive when present).  Writing `st` for the strategy the
orchestrator picks and composing it with the downloader's chapter
resolution (its own metadata fetch reporting the same chapter total):
a count of at most 1 downloads the whole work, ignores the argument, and
sends the single-chapter notice when an argument was supplied; a count
above 1 with no argument downloads the first chapter; with an argument
within range it downloads exactly that (1-based) chapter; with an argument
beyond the count it downloads the first chapter and sends the out-of-range
notice. -/
theorem chapter_selection_table (count : Nat) (arg : Option Int)
    (hpos : ∀ n, arg = some n → 0 < n) :
    (count ≤ 1 →
      (selectStrategy count arg).onlyFirstChapter = false ∧
      (selectStrategy count arg).useChapterIndex = none ∧
      resolveDownloadAction (selectStrategy count arg).onlyFirstChapter
        (selectStrategy count arg).useChapterIndex count = .ok .wholeAlbum ∧
      (∀ n : Int, arg = some n →
        Msg.singleIgnore ∈ (selectStrategy count arg).notices)) ∧
    (1 < count → arg = none →
      resolveDownloadAction (selectStrategy count arg).onlyFirstChapter
        (selectStrategy count arg).useChapterIndex count = .ok (.photo 0)) ∧
    (∀ n : Int, 1 < count → arg = some n → n ≤ (count : Int) →
      resolveDownloadAction (selectStrategy count arg).onlyFirstChapter
        (selectStrategy count arg).useChapterIndex count =
        .ok (.photo (n - 1).toNat)) ∧
    (∀ n : Int, 1 < count → arg = some n → (count : Int) < n →
      resolveDownloadAction (selectStrategy count arg).onlyFirstChapter
        (selectStrategy count arg).useChapterIndex count = .ok (.photo 0) ∧
      Msg.multiIgnoreInvalid count ∈ (selectStrategy count arg).notices) := by
  refine ⟨?_, ?_, ?_, ?_⟩
  · intro hle
    have hnlt : ¬ 1 < count := by omega
    cases arg with
    | none =>
      refine ⟨?_, ?_, ?_, ?_⟩ <;>
        simp [selectStrategy, hnlt, resolveDownloadAction]
    | some n =>
      refine ⟨?_, ?_, ?_, ?_⟩ <;>
        simp [selectStrategy, hnlt, resolveDownloadAction]
  · intro hgt harg
    subst harg
    simp [selectStrategy, hgt, resolveDownloadAction]
    omega
  · intro n hgt harg hle
    subst harg
    have hn : 0 < n := hpos n rfl
    have hnlt : ¬ ((count : Int) < n) := by omega
    have h0 : ¬ (count = 0) := by omega
    have hidx1 : ¬ (n - 1 < (0 : Int)) := by omega
    have hidx2 : ¬ ((count : Int) ≤ n - 1) := by omega
    simp [selectStrategy, hgt, hnlt, resolveDownloadAction, h0, hidx1, hidx2]
  · intro n hgt harg hcn
    subst harg
    have h0 : ¬ (count = 0) := by omega
    simp [selectStrategy, hgt, hcn, resolveDownloadAction, h0]

/-- Witness for C1: a five-chapter work with requested chapter 6 falls back
to the first chapter and sends the out-of-range notice. -/
theorem chapter_selection_table_witness :
    resolveDownloadAction (selectStrategy 5 (some 6)).onlyFirstChapter
      (selectStrategy 5 (some 6)).useChapterIndex 5 = .ok (.photo 0) ∧
    Msg.multiIgnoreInvalid 5 ∈ (selectStrategy 5 (some 6)).notices :=
  (chapter_selection_table 5 (some 6)
    (fun n h => by cases h; decide)).2.2.2 6 (by decide) rfl (by decide)

/-- C10: every triple `execute` returns (when it does not raise) has `True`
as its first component (continue) and `True` as its third component
(success): every terminating path reports a handled, successful outcome to
the host framework. -/
theorem execute_always_reports_success (env : Env) :
    Option.all (fun o => o.ret.1 && o.ret.2.2) (execute env) = true := by
  unfold execute executeAfterParse executeUpload
  repeat' split <;> try rfl

/-- C5 counterexample: every stage succeeds but both upload POSTs raise; the
exception escapes `upload_pdf_via_napcat` (its second attempt's
`try/finally` re-raises) and the handler's `execute`, which never wraps the
upload call, raises with it. -/
theorem execute_raises_cex :
    execute ⟨.withId "123" none, .ok 1, some (.ok "data/album"), 10, 300,
      false, .ok (), .group 5, ⟨.exn, .exn⟩, id, false⟩ = none := rfl

/-- C5 amended: failures surfaced through the stage return values are all
converted to user-facing messages and `execute` terminates normally; an
exception escapes the handler only from the unguarded raise points — the
downloader's directory setup, the PDF directory creation, and the upload
client's fallback attempt.  When none of those raise, `execute` returns. -/
theorem execute_total_unless_unguarded (env : Env)
    (hdl : env.download ≠ none)
    (hmk : env.mkPdfDirRaises = false)
    (hup : upload_pdf_via_napcat env.fmt env.backend ≠ none) :
    (execute env).isSome = true := by
  rcases hdl2 : env.download with _ | d
  · exact absurd hdl2 hdl
  rcases hup2 : upload_pdf_via_napcat env.fmt env.backend with _ | r
  · exact absurd hup2 hup
  rcases r with ⟨ok, m⟩
  unfold execute executeAfterParse executeUpload
  simp only [hdl2, hmk, hup2]
  repeat' split <;> try simp_all

/-- Witness for C5's amended theorem: a run where the backend answers the
first POST with 200. -/
theorem execute_total_unless_unguarded_witness :
    (execute ⟨.withId "123" none, .ok 1, some (.ok "data/album"), 10, 300,
      false, .ok (), .group 5, ⟨.resp 200 "ok", .exn⟩, id, false⟩).isSome = true :=
  execute_total_unless_unguarded _ (by simp) rfl
    (by simp [upload_pdf_via_napcat])

/-- C4 counterexample: a run whose upload fails (structured attempt raises,
multipart attempt answers 500) returns with the upload attempted but the
temporary PDF's deletion never attempted — `os.remove` is unreachable on the
failed-upload path (the `return` at line 501 precedes it). -/
theorem pdf_kept_on_failed_upload_cex :
    (execute ⟨.withId "123" none, .ok 1, some (.ok "data/album"), 10, 300,
      false, .ok (), .group 5, ⟨.exn, .resp 500 "x"⟩, id, false⟩).map
      (fun o => (o.uploadAttempted, o.removeAttempted)) = some (true, false) := rfl

/-- C4 amended: the temporary PDF is deleted only after a successful upload;
after a failed upload the handler returns without attempting the deletion.
The deletion is best-effort: a raising `os.remove` is swallowed and changes
nothing observable (messages, returned triple, whether deletion was
attempted). -/
theorem pdf_cleanup_only_on_success (env : Env) (aid dir : String)
    (cnt : Nat) (gid : Int)
    (hargs : env.args = .withId aid none)
    (hck : env.check = .ok cnt)
    (hdl : env.download = some (.ok dir))
    (himg : env.imgCount ≠ 0)
    (hcap : (env.imgCount : Int) ≤ env.maxPdfPages)
    (hmk : env.mkPdfDirRaises = false)
    (hpdf : env.pdfGen = .ok ())
    (htgt : env.target = .group gid) :
    (∀ m, upload_pdf_via_napcat env.fmt env.backend = some (true, m) →
      (execute env).map (fun o => o.removeAttempted) = some true) ∧
    (∀ m, upload_pdf_via_napcat env.fmt env.backend = some (false, m) →
      (execute env).map (fun o => o.removeAttempted) = some false) ∧
    (execute (setRemoveRaises env true)).map
      (fun o => (o.messages, o.ret, o.removeAttempted)) =
    (execute (setRemoveRaises env false)).map
      (fun o => (o.messages, o.ret, o.removeAttempted)) := by
  have hcap' : ¬ (env.maxPdfPages < (env.imgCount : Int)) := not_lt.mpr hcap
  refine ⟨?_, ?_, ?_⟩
  · intro m hm
    simp [execute, executeAfterParse, executeUpload, finish, hargs, hck, hdl,
      himg, hcap', hmk, hpdf, htgt, hm]
  · intro m hm
    simp [execute, executeAfterParse, executeUpload, finish, hargs, hck, hdl,
      himg, hcap', hmk, hpdf, htgt, hm]
  · cases hu : upload_pdf_via_napcat env.fmt env.backend with
    | none =>
      simp [execute, executeAfterParse, executeUpload, finish, setRemoveRaises,
        hargs, hck, hdl, himg, hcap', hmk, hpdf, htgt, hu]
    | some r =>
      rcases r with ⟨ok, m⟩
      cases ok <;>
        simp [execute, executeAfterParse, executeUpload, finish, setRemoveRaises,
          hargs, hck, hdl, himg, hcap', hmk, hpdf, htgt, hu]

/-- Witness for C4's amended theorem: the failed-upload conjunct at a
concrete run whose multipart attempt answers 500. -/
theorem pdf_cleanup_only_on_success_witness :
    (execute ⟨.withId "9" none, .ok 1, some (.ok "data/a"), 10, 300,
      false, .ok (), .group 5, ⟨.exn, .resp 500 "x"⟩, id, false⟩).map
      (fun o => o.removeAttempted) = some false :=
  (pdf_cleanup_only_on_success _ "9" "data/a" 1 5 rfl rfl rfl
    (by decide) (by decide) rfl rfl rfl).2.1 "HTTP 500: x" rfl

/-- C6: when the collected image count exceeds the configured page cap, the
orchestrator's last message reports the limit and it terminates with no PDF
produced and no upload attempted; when the count is within the cap (and
nonzero, the empty case having terminated one step earlier), PDF assembly
proceeds and produces the file. -/
theorem page_cap_gate (env : Env) (aid dir : String) (cnt : Nat) (gid : Int)
    (hargs : env.args = .withId aid none)
    (hck : env.check = .ok cnt)
    (hdl : env.download = some (.ok dir))
    (himg : env.imgCount ≠ 0)
    (htgt : env.target = .group gid)
    (hup : upload_pdf_via_napcat env.fmt env.backend ≠ none) :
    (env.maxPdfPages < (env.imgCount : Int) →
      (execute env).map (fun o => o.messages.getLast?) =
        some (some (.tooManyPages env.maxPdfPages)) ∧
      (execute env).map (fun o => (o.pdfCreated, o.uploadAttempted)) =
        some (false, false)) ∧
    ((env.imgCount : Int) ≤ env.maxPdfPages → env.mkPdfDirRaises = false →
      env.pdfGen = .ok () →
      (execute env).map (fun o => o.pdfCreated) = some true) := by
  constructor
  · intro hcap
    constructor
    · simp [execute, executeAfterParse, finish, hargs, hck, hdl, himg, hcap,
        getLast?_cons_append_pair]
    · simp [execute, executeAfterParse, finish, hargs, hck, hdl, himg, hcap]
  · intro hcap hmk hpdf
    have hcap' : ¬ (env.maxPdfPages < (env.imgCount : Int)) := not_lt.mpr hcap
    cases hu : upload_pdf_via_napcat env.fmt env.backend with
    | none => exact absurd hu hup
    | some r =>
      rcases r with ⟨ok, m⟩
      cases ok <;>
        simp [execute, executeAfterParse, executeUpload, finish, hargs, hck,
          hdl, himg, hcap', hmk, hpdf, htgt, hu]

/-- Witness for C6: 301 collected images against the default cap of 300. -/
theorem page_cap_gate_witness :
    (execute ⟨.withId "7" none, .ok 1, some (.ok "data/a"), 301, 300,
      false, .ok (), .group 5, ⟨.resp 200 "ok", .exn⟩, id, false⟩).map
      (fun o => (o.pdfCreated, o.uploadAttempted)) = some (false, false) :=
  ((page_cap_gate _ "7" "data/a" 1 5 rfl rfl rfl (by decide) rfl
    (by simp [upload_pdf_via_napcat])).1 (by decide)).2

end JMPlugin
